import Mathlib

/-!
Shallow embedding of the order-placement utilities of the
`LakshyaKumar-binance-bot` repository, together with proofs of the
behavioural properties stated about them.

Numeric conventions: Python `float` values are modelled as exact
rationals (`ℚ`) and Python `int` values as `ℤ`.  Control flow with
exceptions is modelled by explicit outcome environments
(`Option`-valued per-iteration results).  Wall-clock effects
(`time.sleep`, timestamps) and console output are irrelevant to the
properties below and are not modelled.
-/

/-- Model of `str.upper()` restricted to ASCII, which covers every string
the program upper-cases (trading sides such as "BUY"/"SELL" and trading
symbols). -/
def pyUpper (s : String) : String :=
  String.mk (s.data.map Char.toUpper)

/-- `charsStartWith s pat` holds when `pat` begins `s` (character lists). -/
def charsStartWith : List Char → List Char → Bool
  | _, [] => true
  | [], _ :: _ => false
  | a :: as, b :: bs => a == b && charsStartWith as bs

/-- `charsContain pat s` holds when `pat` occurs contiguously inside `s`. -/
def charsContain (pat : List Char) : List Char → Bool
  | [] => pat.isEmpty
  | a :: t => charsStartWith (a :: t) pat || charsContain pat t

/-- Model of Python's `sub in s` substring test on strings. -/
def strHas (s sub : String) : Bool :=
  charsContain sub.data s.data

/-- Model of Python's `round(x, n)` on exact rationals, as round-half-up to
`n` decimal places.  Python rounds the binary double half-to-even; on every
input appearing in this development the digit being dropped is not a tie,
so the two rules agree there. -/
def pyRound (x : ℚ) (n : ℕ) : ℚ :=
  ((⌊x * 10 ^ n + 1 / 2⌋ : ℤ) : ℚ) / 10 ^ n

/-- `src/utils.py`, `BinanceBot.format_price` (lines 138-145): round a price
to the symbol-specific decimal precision. -/
def format_price (price : ℚ) (symbol : String) : ℚ :=
  if strHas symbol "BTC" = true then pyRound price 2
  else if strHas symbol "ETH" = true then pyRound price 2
  else pyRound price 4

/-- `src/utils.py`, `BinanceBot.format_quantity` (lines 147-154): round a
quantity to the symbol-specific decimal precision. -/
def format_quantity (quantity : ℚ) (symbol : String) : ℚ :=
  if strHas symbol "BTC" = true then pyRound quantity 3
  else if strHas symbol "ETH" = true then pyRound quantity 2
  else pyRound quantity 1

/-- `src/utils.py`, `BinanceBot.should_trade_based_on_sentiment`
(lines 124-136), with the fear/greed index passed explicitly (the `None`
default merely fetches the latest index before applying the same rule). -/
def should_trade_based_on_sentiment (side : String) (fear_greed_index : ℤ) : Bool :=
  if pyUpper side = "BUY" then decide (fear_greed_index < 40)
  else if pyUpper side = "SELL" then decide (60 < fear_greed_index)
  else true

/-! ## TWAP planner, `src/src/advanced/twap.py` -/

/-- `execute_twap_order`, line 70: the equal slice size. -/
def twapQuantityPerOrder (total_quantity : ℚ) (num_orders : ℤ) : ℚ :=
  total_quantity / (num_orders : ℚ)

/-- `execute_twap_order`, line 71: the pause between consecutive slices. -/
def twapIntervalSeconds (duration_minutes num_orders : ℤ) : ℚ :=
  ((duration_minutes : ℚ) * 60) / (num_orders : ℚ)

/-- Outcome of one iteration of the TWAP loop (lines 108-197): either the
iteration raised an exception (`ok = false`, caught at line 194), or the
order went through with the recorded executed quantity (line 167) and the
price observed for that slice (lines 113-122). -/
structure SliceOutcome where
  ok : Bool
  executedQty : ℚ
  price : ℚ
deriving DecidableEq, Repr

/-- Running total `total_executed_qty` (line 179) after the TWAP loop:
failed slices contribute nothing, the loop never stops early. -/
def twapExecQty : List SliceOutcome → ℚ
  | [] => 0
  | s :: t => (if s.ok = true then s.executedQty else 0) + twapExecQty t

/-- Running total `total_cost` (lines 168, 180) after the TWAP loop. -/
def twapCost : List SliceOutcome → ℚ
  | [] => 0
  | s :: t => (if s.ok = true then s.executedQty * s.price else 0) + twapCost t

/-- `len(executed_orders)` (line 170): how many slices went through. -/
def twapExecCount : List SliceOutcome → ℕ
  | [] => 0
  | s :: t => (if s.ok = true then 1 else 0) + twapExecCount t

/-- Validation phase of `execute_twap_order` (lines 40-58): symbol, side,
quantity, duration and order-count checks, in that order; every failing
check returns `False` before the loop runs. -/
def twapValid (symbolValid : Bool) (side : String) (total_quantity : ℚ)
    (duration_minutes num_orders : ℤ) : Bool :=
  symbolValid
    && (pyUpper side == "BUY" || pyUpper side == "SELL")
    && decide (0 < total_quantity)
    && decide (0 < duration_minutes)
    && decide (0 < num_orders)

/-- Observable result of one TWAP run: the returned Boolean (lines 236,
239), the total executed quantity, and the number of slices that went
through. -/
structure TwapResult where
  success : Bool
  executedQty : ℚ
  ordersExecuted : ℕ
deriving DecidableEq, Repr

/-- `execute_twap_order` (`src/src/advanced/twap.py`, lines 23-239), with
the per-slice environment passed explicitly as `slices` (one entry per
loop iteration).  Validation failure or a sentiment rejection returns
before any slice runs; afterwards the loop accumulates over all slices and
the function returns `True` exactly when `total_executed_qty > 0`
(line 203). -/
def execute_twap_order (symbolValid : Bool) (side : String) (total_quantity : ℚ)
    (duration_minutes num_orders : ℤ) (use_sentiment : Bool) (fear_greed : ℤ)
    (slices : List SliceOutcome) : TwapResult :=
  if twapValid symbolValid side total_quantity duration_minutes num_orders = false then
    ⟨false, 0, 0⟩
  else if use_sentiment = true
      ∧ should_trade_based_on_sentiment side fear_greed = false then
    ⟨false, 0, 0⟩
  else
    ⟨decide (0 < twapExecQty slices), twapExecQty slices, twapExecCount slices⟩

/-- The slice outcomes produced by a fully simulated TWAP run (lines
113-145): no slice raises, and each slice's executed quantity is the
formatted slice size `bot.format_quantity(quantity_per_order, symbol)`
(lines 125, 139-140, 167), at whatever price was observed. -/
def twapSimSlices (symbol : String) (total_quantity : ℚ) (num_orders : ℤ)
    (prices : List ℚ) : List SliceOutcome :=
  prices.map fun p =>
    ⟨true, format_quantity (twapQuantityPerOrder total_quantity num_orders) symbol, p⟩

/-! ## Grid planner, `src/src/advanced/grid_strategy.py` -/

/-- `execute_grid_strategy`, line 70: `price_range = current_price * (price_range_pct / 100)`. -/
def gridPriceRange (current_price price_range_pct : ℚ) : ℚ :=
  current_price * (price_range_pct / 100)

/-- `execute_grid_strategy`, line 72: the lower bound of the band. -/
def gridLower (current_price price_range_pct : ℚ) : ℚ :=
  current_price - gridPriceRange current_price price_range_pct / 2

/-- `execute_grid_strategy`, line 71: the upper bound of the band. -/
def gridUpper (current_price price_range_pct : ℚ) : ℚ :=
  current_price + gridPriceRange current_price price_range_pct / 2

/-- `execute_grid_strategy`, line 73: `price_step = price_range / (num_grids - 1)`. -/
def gridStep (current_price price_range_pct : ℚ) (num_grids : ℤ) : ℚ :=
  gridPriceRange current_price price_range_pct / ((num_grids : ℚ) - 1)

/-- `execute_grid_strategy`, line 76: `investment_per_grid = total_investment / num_grids`. -/
def investmentPerGrid (total_investment : ℚ) (num_grids : ℤ) : ℚ :=
  total_investment / (num_grids : ℚ)

/-- `execute_grid_strategy`, line 92: the exact price of level `i`
(0-based), `grid_price = lower_price + i * price_step`. -/
def gridRawPrice (current_price price_range_pct : ℚ) (num_grids : ℤ) (i : ℕ) : ℚ :=
  gridLower current_price price_range_pct + (i : ℚ) * gridStep current_price price_range_pct num_grids

/-- Side choice of lines 96-104: below current price buy, above sell,
at the current price buy. -/
def gridSide (grid_price current_price : ℚ) : String :=
  if grid_price < current_price then "BUY"
  else if current_price < grid_price then "SELL"
  else "BUY"

/-- Order-type choice of lines 96-104: limit off the pivot, market at it. -/
def gridOrderType (grid_price current_price : ℚ) : String :=
  if grid_price < current_price then "LIMIT"
  else if current_price < grid_price then "LIMIT"
  else "MARKET"

/-- One entry of `grid_levels` (lines 106-114), fields as in the source
dict: the stored price and quantity are the formatted ones, while the side
and type were decided on the unformatted `grid_price`. -/
structure GridLevel where
  level : ℕ
  price : ℚ
  quantity : ℚ
  side : String
  otype : String
  investment : ℚ
  status : String
deriving DecidableEq, Repr

/-- The `grid_levels` list built by the loop at lines 91-114. -/
def gridLevels (symbol : String) (current_price total_investment price_range_pct : ℚ)
    (num_grids : ℤ) : List GridLevel :=
  (List.range num_grids.toNat).map fun i =>
    { level := i + 1
      price := format_price (gridRawPrice current_price price_range_pct num_grids i) symbol
      quantity := format_quantity
        (investmentPerGrid total_investment num_grids
          / gridRawPrice current_price price_range_pct num_grids i) symbol
      side := gridSide (gridRawPrice current_price price_range_pct num_grids i) current_price
      otype := gridOrderType (gridRawPrice current_price price_range_pct num_grids i) current_price
      investment := investmentPerGrid total_investment num_grids
      status := "PENDING" }

/-- Outcome of placing one grid level (lines 134-199): `none` when the
placement raised (caught at line 195, level marked FAILED), `some st` when
an order result with status `st` came back. -/
def gridOutcomeOk : Option String → Bool
  | some st => !(st == "FAILED" || st == "REJECTED")
  | none => false

/-- `successful_orders` (line 202): placed orders whose status is neither
FAILED nor REJECTED. -/
def gridSuccessCount (outcomes : List (Option String)) : ℕ :=
  (outcomes.filter gridOutcomeOk).length

/-- Observable result of one grid run: the returned Boolean (line 241),
the number of levels planned and the number of placement attempts made. -/
structure GridResult where
  success : Bool
  planned : ℕ
  attempted : ℕ
deriving DecidableEq, Repr

/-- `execute_grid_strategy` (`src/src/advanced/grid_strategy.py`, lines
22-241).  Explicit environment: `symbolValid` for `bot.validate_symbol`,
`current_price` for the exchange lookup at line 66, `sentimentOverride`
for the interactive "Continue anyway?" prompt, `confirm` for the
pre-placement prompt at line 124, and `outcomes` for the per-level
placement results.  Every validation failure returns `False` before a
price is fetched or a level is placed; the placement loop processes every
level (a failure is caught and the loop continues), and the run succeeds
exactly when `successful_orders > 0` (line 241). -/
def execute_grid_strategy (symbolValid : Bool) (symbol : String)
    (total_investment price_range_pct : ℚ) (num_grids : ℤ)
    (use_sentiment : Bool) (fear_greed : ℤ) (sentimentOverride : Bool)
    (current_price : ℚ) (confirm : Bool)
    (outcomes : List (Option String)) : GridResult :=
  if symbolValid = false then ⟨false, 0, 0⟩
  else if total_investment ≤ 0 then ⟨false, 0, 0⟩
  else if price_range_pct ≤ 0 ∨ 50 < price_range_pct then ⟨false, 0, 0⟩
  else if num_grids < 2 then ⟨false, 0, 0⟩
  else if use_sentiment = true ∧ 70 < fear_greed ∧ sentimentOverride = false then
    ⟨false, 0, 0⟩
  else if confirm = false then ⟨false, 0, 0⟩
  else
    ⟨decide (0 < gridSuccessCount
        (outcomes.take (gridLevels symbol current_price total_investment price_range_pct num_grids).length)),
      (gridLevels symbol current_price total_investment price_range_pct num_grids).length,
      (gridLevels symbol current_price total_investment price_range_pct num_grids).length⟩

/-! ## Simulated order submission

Each single-shot placer replaces the exchange call, in simulated mode, by
constructing a result dict from the already-validated and formatted
inputs.  The dicts are modelled as structures; numeric fields that Python
stores as `str(...)` keep their exact rational value here, rendered with
`toString` inside identifiers.  The TWAP slice dict additionally records a
wall-clock `transactTime` (twap.py line 143); that clock read is passed in
as an explicit environment input.  Every identifier, by contrast, is built
from the submission's inputs alone. -/

/-- A synthetic single-order result dict.  `executedQty` and
`transactTime` are present only in the simulated TWAP slice dict
(twap.py lines 140, 143) and absent from the other placers' dicts. -/
structure SimOrderResult where
  orderId : String
  symbol : String
  side : String
  otype : String
  origQty : ℚ
  price : ℚ
  stopPrice : Option ℚ := none
  executedQty : Option ℚ := none
  transactTime : Option ℤ := none
  status : String
deriving DecidableEq, Repr

/-- `src/src/market_orders.py`, lines 60-71: the simulated market order. -/
def place_market_order_sim (symbol side : String) (quantity current_price : ℚ) :
    SimOrderResult :=
  { orderId := "SIM_" ++ symbol ++ "_" ++ side ++ "_" ++ toString quantity
    symbol := symbol
    side := side
    otype := "MARKET"
    origQty := quantity
    price := current_price
    status := "FILLED" }

/-- `src/src/limit_orders.py`, lines 73-84: the simulated limit order. -/
def place_limit_order_sim (symbol side : String) (quantity price : ℚ) :
    SimOrderResult :=
  { orderId := "SIM_LIMIT_" ++ symbol ++ "_" ++ side ++ "_" ++ toString quantity
      ++ "_" ++ toString price
    symbol := symbol
    side := side
    otype := "LIMIT"
    origQty := quantity
    price := price
    status := "NEW" }

/-- `src/src/advanced/stop_limit.py`, lines 83-94: the simulated stop-limit
order. -/
def place_stop_limit_order_sim (symbol side : String) (quantity stop_price limit_price : ℚ) :
    SimOrderResult :=
  { orderId := "SIM_STOP_LIMIT_" ++ symbol ++ "_" ++ side ++ "_" ++ toString quantity
      ++ "_" ++ toString stop_price ++ "_" ++ toString limit_price
    symbol := symbol
    side := side
    otype := "STOP_MARKET"
    origQty := quantity
    stopPrice := some stop_price
    price := limit_price
    status := "NEW" }

/-- `src/src/advanced/twap.py`, lines 132-145: the simulated TWAP slice
order (`i` is the 0-based loop index).  The dict's `transactTime` field,
`int(order_start_time.timestamp() * 1000)` at line 143, is a wall-clock
read, modelled as the explicit environment input `transactTime`; its
`executedQty` equals the formatted slice quantity (line 140). -/
def twap_slice_order_sim (symbol side : String) (i : ℕ) (order_quantity current_price : ℚ)
    (transactTime : ℤ) : SimOrderResult :=
  { orderId := "TWAP_SIM_" ++ toString (i + 1) ++ "_" ++ symbol ++ "_" ++ side
      ++ "_" ++ toString order_quantity
    symbol := symbol
    side := side
    otype := "MARKET"
    origQty := order_quantity
    executedQty := some order_quantity
    transactTime := some transactTime
    price := current_price
    status := "FILLED" }

/-- `src/src/advanced/grid_strategy.py`, lines 138-148: the simulated
placement of one grid level; limit levels come back `NEW`, the market
level `FILLED`. -/
def grid_order_sim (symbol : String) (g : GridLevel) : SimOrderResult :=
  { orderId := "GRID_SIM_" ++ toString g.level ++ "_" ++ symbol ++ "_" ++ g.side
    symbol := symbol
    side := g.side
    otype := g.otype
    origQty := g.quantity
    price := g.price
    status := if g.otype = "LIMIT" then "NEW" else "FILLED" }

/-- One leg of the simulated OCO result dict. -/
structure OcoSimLeg where
  orderId : String
  otype : String
  price : ℚ
  stopPrice : Option ℚ := none
  origQty : ℚ
deriving DecidableEq, Repr

/-- The simulated OCO result dict: a list-level identifier, the two legs,
and a single list-level status. -/
structure OcoSimResult where
  orderListId : String
  symbol : String
  side : String
  orders : List OcoSimLeg
  status : String
deriving DecidableEq, Repr

/-- `src/src/advanced/oco.py`, lines 90-113: the simulated OCO pair. -/
def place_oco_order_sim (symbol side : String) (quantity price stop_price stop_limit_price : ℚ) :
    OcoSimResult :=
  { orderListId := "SIM_OCO_" ++ symbol ++ "_" ++ side ++ "_" ++ toString quantity
    symbol := symbol
    side := side
    orders :=
      [ { orderId := "SIM_OCO_LIMIT_" ++ symbol ++ "_" ++ side ++ "_" ++ toString quantity
          otype := "LIMIT_MAKER"
          price := price
          origQty := quantity }
      , { orderId := "SIM_OCO_STOP_" ++ symbol ++ "_" ++ side ++ "_" ++ toString quantity
          otype := "STOP_LOSS_LIMIT"
          stopPrice := some stop_price
          price := stop_limit_price
          origQty := quantity } ]
    status := "EXECUTING" }

/-! ## Helper lemmas -/

lemma twapExecQty_nonneg (slices : List SliceOutcome)
    (h : ∀ s ∈ slices, s.ok = true → 0 ≤ s.executedQty) :
    0 ≤ twapExecQty slices := by
  induction slices with
  | nil => simp [twapExecQty]
  | cons s t ih =>
    have hs := h s (List.mem_cons_self s t)
    have ht : 0 ≤ twapExecQty t := ih fun x hx => h x (List.mem_cons_of_mem s hx)
    by_cases hok : s.ok = true
    · simpa [twapExecQty, hok] using add_nonneg (hs hok) ht
    · simpa [twapExecQty, hok] using ht

lemma twapExecQty_pos_iff (slices : List SliceOutcome)
    (h : ∀ s ∈ slices, s.ok = true → 0 < s.executedQty) :
    0 < twapExecQty slices ↔ ∃ s ∈ slices, s.ok = true := by
  induction slices with
  | nil => simp [twapExecQty]
  | cons s t ih =>
    have ht : 0 ≤ twapExecQty t :=
      twapExecQty_nonneg t fun x hx hok => (h x (List.mem_cons_of_mem s hx) hok).le
    by_cases hok : s.ok = true
    · have hq : 0 < s.executedQty := h s (List.mem_cons_self s t) hok
      have : 0 < twapExecQty (s :: t) := by
        simpa [twapExecQty, hok] using add_pos_of_pos_of_nonneg hq ht
      simp [this, hok]
    · have hrec := ih fun x hx => h x (List.mem_cons_of_mem s hx)
      simp [twapExecQty, hok, hrec]

lemma twapExecQty_eq_zero_of_all_fail (slices : List SliceOutcome)
    (h : ∀ s ∈ slices, s.ok = false) :
    twapExecQty slices = 0 := by
  induction slices with
  | nil => rfl
  | cons s t ih =>
    have hs : s.ok = false := h s (List.mem_cons_self s t)
    have ht := ih fun x hx => h x (List.mem_cons_of_mem s hx)
    simp [twapExecQty, hs, ht]

lemma twap_totals_skip_failed (pre post : List SliceOutcome)
    (h : ∀ s ∈ pre, s.ok = false) :
    twapExecQty (pre ++ post) = twapExecQty post
    ∧ twapExecCount (pre ++ post) = twapExecCount post := by
  induction pre with
  | nil => simp
  | cons s t ih =>
    have hs : s.ok = false := h s (List.mem_cons_self s t)
    have ht := ih fun x hx => h x (List.mem_cons_of_mem s hx)
    simp [twapExecQty, twapExecCount, hs, ht.1, ht.2]

lemma gridStep_pos (current_price price_range_pct : ℚ) (num_grids : ℤ)
    (hcp : 0 < current_price) (hp1 : 0 < price_range_pct) (hng : 2 ≤ num_grids) :
    0 < gridStep current_price price_range_pct num_grids := by
  have h2 : (2 : ℚ) ≤ (num_grids : ℚ) := by exact_mod_cast hng
  have hden : 0 < (num_grids : ℚ) - 1 := by linarith
  have hnum : 0 < gridPriceRange current_price price_range_pct := by
    have : 0 < price_range_pct / 100 := by positivity
    exact mul_pos hcp this
  exact div_pos hnum hden

lemma gridLower_ge (current_price price_range_pct : ℚ)
    (hcp : 0 < current_price) (hp2 : price_range_pct ≤ 50) :
    3 / 4 * current_price ≤ gridLower current_price price_range_pct := by
  unfold gridLower gridPriceRange
  nlinarith

/-! ## Claim theorems -/

/-- C1: for validated TWAP inputs the planner computes
`quantity_per_order = total_quantity / num_orders` and
`interval_seconds = duration_minutes * 60 / num_orders`, so the slice
quantity times the order count gives back the total quantity, and the
interval times the order count gives back the duration in seconds. -/
theorem twap_plan_arithmetic (total_quantity : ℚ) (duration_minutes num_orders : ℤ)
    (hq : 0 < total_quantity) (hd : 0 < duration_minutes) (hn : 0 < num_orders) :
    twapQuantityPerOrder total_quantity num_orders * (num_orders : ℚ) = total_quantity
    ∧ twapIntervalSeconds duration_minutes num_orders * (num_orders : ℚ)
        = (duration_minutes : ℚ) * 60 := by
  have hn0 : ((num_orders : ℚ)) ≠ 0 := by exact_mod_cast hn.ne'
  exact ⟨div_mul_cancel₀ _ hn0, div_mul_cancel₀ _ hn0⟩

theorem twap_plan_arithmetic_witness :
    twapQuantityPerOrder 10 5 * ((5 : ℤ) : ℚ) = 10
    ∧ twapIntervalSeconds 60 5 * ((5 : ℤ) : ℚ) = ((60 : ℤ) : ℚ) * 60 :=
  twap_plan_arithmetic 10 60 5 (by norm_num) (by decide) (by decide)

/-- C6: the sentiment gate permits a BUY exactly below index 40 and a SELL
exactly above index 60, with the four boundary evaluations of the spec. -/
theorem sentiment_gate_thresholds (idx : ℤ) :
    should_trade_based_on_sentiment "BUY" idx = decide (idx < 40)
    ∧ should_trade_based_on_sentiment "SELL" idx = decide (60 < idx)
    ∧ should_trade_based_on_sentiment "BUY" 39 = true
    ∧ should_trade_based_on_sentiment "BUY" 40 = false
    ∧ should_trade_based_on_sentiment "SELL" 61 = true
    ∧ should_trade_based_on_sentiment "SELL" 60 = false := by
  have hb : pyUpper "BUY" = "BUY" := by decide
  have hs1 : pyUpper "SELL" = "SELL" := by decide
  have hs2 : pyUpper "SELL" ≠ "BUY" := by decide
  refine ⟨?_, ?_, by decide, by decide, by decide, by decide⟩
  · simp [should_trade_based_on_sentiment, hb]
  · simp [should_trade_based_on_sentiment, hs1, hs2]

/-- C7: price and quantity formatting rounds to the symbol-specific
precision; `format_price(45123.456, "BTCUSDT") = 45123.46` and
`format_quantity(1.23456, "ETHUSDT") = 1.23`. -/
theorem format_examples :
    format_price (45123456 / 1000) "BTCUSDT" = 4512346 / 100
    ∧ format_quantity (123456 / 100000) "ETHUSDT" = 123 / 100 := by
  have h1 : strHas "BTCUSDT" "BTC" = true := by decide
  have h2 : strHas "ETHUSDT" "BTC" = false := by decide
  have h3 : strHas "ETHUSDT" "ETH" = true := by decide
  constructor
  · simp only [format_price, h1, if_true]
    norm_num [pyRound]
  · simp only [format_quantity, h2, h3, Bool.false_eq_true, if_false, if_true]
    norm_num [pyRound]

/-- C9: a side that upper-cases to neither BUY nor SELL is never blocked by
the sentiment gate, whatever the index value. -/
theorem sentiment_gate_other_sides (side : String) (idx : ℤ)
    (h1 : pyUpper side ≠ "BUY") (h2 : pyUpper side ≠ "SELL") :
    should_trade_based_on_sentiment side idx = true := by
  simp [should_trade_based_on_sentiment, h1, h2]

theorem sentiment_gate_other_sides_witness :
    should_trade_based_on_sentiment "hold" 0 = true :=
  sentiment_gate_other_sides "hold" 0 (by decide) (by decide)

/-- C3: for validated grid inputs (and a positive pivot price) the level
prices are strictly increasing and evenly spaced by
`price_step = price_range / (num_grids - 1)`, and each generated level's
side and type follow the rule: below the pivot BUY/LIMIT, above it
SELL/LIMIT, at it BUY/MARKET. -/
theorem grid_levels_increasing_spaced_sides (symbol : String)
    (current_price total_investment price_range_pct : ℚ) (num_grids : ℤ)
    (hcp : 0 < current_price) (hti : 0 < total_investment)
    (hp1 : 0 < price_range_pct) (hp2 : price_range_pct ≤ 50) (hng : 2 ≤ num_grids) :
    (∀ i : ℕ, gridRawPrice current_price price_range_pct num_grids (i + 1)
        - gridRawPrice current_price price_range_pct num_grids i
        = gridStep current_price price_range_pct num_grids)
    ∧ (∀ i j : ℕ, i < j →
        gridRawPrice current_price price_range_pct num_grids i
          < gridRawPrice current_price price_range_pct num_grids j)
    ∧ (gridLevels symbol current_price total_investment price_range_pct num_grids).length
        = num_grids.toNat
    ∧ (∀ (i : ℕ)
        (h : i < (gridLevels symbol current_price total_investment price_range_pct num_grids).length),
        ((gridLevels symbol current_price total_investment price_range_pct num_grids)[i].side,
         (gridLevels symbol current_price total_investment price_range_pct num_grids)[i].otype)
          = if gridRawPrice current_price price_range_pct num_grids i < current_price then
              ("BUY", "LIMIT")
            else if current_price < gridRawPrice current_price price_range_pct num_grids i then
              ("SELL", "LIMIT")
            else ("BUY", "MARKET")) := by
  have hstep := gridStep_pos current_price price_range_pct num_grids hcp hp1 hng
  refine ⟨?_, ?_, ?_, ?_⟩
  · intro i
    unfold gridRawPrice
    push_cast
    ring
  · intro i j hij
    unfold gridRawPrice
    have hij' : (i : ℚ) < (j : ℚ) := by exact_mod_cast hij
    have := mul_lt_mul_of_pos_right hij' hstep
    linarith
  · simp [gridLevels]
  · intro i h
    have hlen : i < (List.range num_grids.toNat).length := by
      simpa [gridLevels] using h
    simp only [gridLevels, List.getElem_map, List.getElem_range]
    simp only [gridSide, gridOrderType]
    split_ifs <;> rfl

theorem grid_levels_increasing_spaced_sides_witness :
    gridRawPrice 100 10 5 1 - gridRawPrice 100 10 5 0 = gridStep 100 10 5
    ∧ gridRawPrice 100 10 5 0 < gridRawPrice 100 10 5 4
    ∧ (gridLevels "BTCUSDT" 100 1000 10 5).length = (5 : ℤ).toNat := by
  have h := grid_levels_increasing_spaced_sides "BTCUSDT" 100 1000 10 5
    (by norm_num) (by norm_num) (by norm_num) (by norm_num) (by decide)
  exact ⟨h.1 0, h.2.1 0 4 (by decide), h.2.2.1⟩

/-- C4: for validated grid inputs, every level carries
`investment_per_grid = total_investment / num_grids`, and the investments
of the generated levels sum back to the total investment. -/
theorem grid_investment_sum (symbol : String)
    (current_price total_investment price_range_pct : ℚ) (num_grids : ℤ)
    (hti : 0 < total_investment) (hng : 2 ≤ num_grids) :
    (∀ g ∈ gridLevels symbol current_price total_investment price_range_pct num_grids,
        g.investment = investmentPerGrid total_investment num_grids)
    ∧ ((gridLevels symbol current_price total_investment price_range_pct num_grids).map
        (fun g => g.investment)).sum = total_investment := by
  have hconst : ∀ (m : ℕ) (c : ℚ), ((List.range m).map fun _ => c).sum = (m : ℚ) * c := by
    intro m c
    induction m with
    | zero => simp
    | succ k ih =>
      rw [List.range_succ]
      simp [ih]
      ring
  constructor
  · intro g hg
    simp only [gridLevels, List.mem_map] at hg
    obtain ⟨i, _, rfl⟩ := hg
    rfl
  · have hn0 : ((num_grids : ℚ)) ≠ 0 := by
      have : (2 : ℚ) ≤ (num_grids : ℚ) := by exact_mod_cast hng
      linarith
    have hcast : ((num_grids.toNat : ℚ)) = (num_grids : ℚ) := by
      have : ((num_grids.toNat : ℤ)) = num_grids :=
        Int.toNat_of_nonneg (le_trans (by decide) hng)
      exact_mod_cast this
    have hmap : ((gridLevels symbol current_price total_investment price_range_pct num_grids).map
            (fun g => g.investment))
        = (List.range num_grids.toNat).map
            fun _ => investmentPerGrid total_investment num_grids := by
      simp only [gridLevels, List.map_map]
      rfl
    rw [hmap, hconst, hcast, investmentPerGrid, mul_comm, div_mul_cancel₀ _ hn0]

theorem grid_investment_sum_witness :
    ((gridLevels "BTCUSDT" 100 1000 10 5).map (fun g => g.investment)).sum = 1000 :=
  (grid_investment_sum "BTCUSDT" 100 1000 10 5 (by norm_num) (by decide)).2

/-- C10: for validated grid inputs and a positive pivot price, the lowest
level price is `current_price * (1 - price_range_pct / 200)`, which is at
least three quarters of the pivot; every level price is strictly positive
and in particular nonzero, so the per-level quantity
`investment_per_grid / grid_price` never divides by zero. -/
theorem grid_prices_positive (current_price price_range_pct : ℚ) (num_grids : ℤ)
    (hcp : 0 < current_price) (hp1 : 0 < price_range_pct) (hp2 : price_range_pct ≤ 50)
    (hng : 2 ≤ num_grids) :
    gridRawPrice current_price price_range_pct num_grids 0
      = current_price * (1 - price_range_pct / 200)
    ∧ 3 / 4 * current_price ≤ gridRawPrice current_price price_range_pct num_grids 0
    ∧ (∀ i : ℕ, 0 < gridRawPrice current_price price_range_pct num_grids i)
    ∧ (∀ i : ℕ, gridRawPrice current_price price_range_pct num_grids i ≠ 0) := by
  have hstep := gridStep_pos current_price price_range_pct num_grids hcp hp1 hng
  have hlow := gridLower_ge current_price price_range_pct hcp hp2
  have hpos : ∀ i : ℕ, 0 < gridRawPrice current_price price_range_pct num_grids i := by
    intro i
    have hi : (0 : ℚ) ≤ (i : ℚ) * gridStep current_price price_range_pct num_grids :=
      mul_nonneg (by positivity) hstep.le
    unfold gridRawPrice
    nlinarith
  refine ⟨?_, ?_, hpos, fun i => (hpos i).ne'⟩
  · unfold gridRawPrice gridLower gridPriceRange
    push_cast
    ring
  · have : gridRawPrice current_price price_range_pct num_grids 0
        = gridLower current_price price_range_pct := by
      unfold gridRawPrice
      push_cast
      ring
    rw [this]
    exact hlow

theorem grid_prices_positive_witness :
    gridRawPrice 100 10 5 0 = 100 * (1 - 10 / 200)
    ∧ 0 < gridRawPrice 100 10 5 4
    ∧ gridRawPrice 100 10 5 2 ≠ 0 := by
  have h := grid_prices_positive 100 10 5 (by norm_num) (by norm_num) (by norm_num) (by decide)
  exact ⟨h.1, h.2.2.1 4, h.2.2.2 2⟩

/-- C5: invalid parameters are rejected before any order activity: a TWAP
invocation with a non-positive order count or duration returns failure
with no slice run, and a grid invocation with fewer than two grids or a
range percentage outside (0, 50] returns failure with no level placed. -/
theorem validation_rejects_before_activity :
    (∀ (symbolValid : Bool) (side : String) (total_quantity : ℚ)
        (duration_minutes num_orders : ℤ) (use_sentiment : Bool) (fear_greed : ℤ)
        (slices : List SliceOutcome),
        duration_minutes ≤ 0 ∨ num_orders ≤ 0 →
        execute_twap_order symbolValid side total_quantity duration_minutes num_orders
          use_sentiment fear_greed slices = ⟨false, 0, 0⟩)
    ∧ (∀ (symbolValid : Bool) (symbol : String) (total_investment price_range_pct : ℚ)
        (num_grids : ℤ) (use_sentiment : Bool) (fear_greed : ℤ)
        (sentimentOverride : Bool) (current_price : ℚ) (confirm : Bool)
        (outcomes : List (Option String)),
        num_grids < 2 ∨ price_range_pct ≤ 0 ∨ 50 < price_range_pct →
        execute_grid_strategy symbolValid symbol total_investment price_range_pct num_grids
          use_sentiment fear_greed sentimentOverride current_price confirm outcomes
          = ⟨false, 0, 0⟩) := by
  constructor
  · intro sv side tq dm n us fg slices hbad
    have hval : twapValid sv side tq dm n = false := by
      rcases hbad with h | h
      · have hd : decide (0 < dm) = false := decide_eq_false (not_lt.mpr h)
        simp [twapValid, hd]
      · have hn : decide (0 < n) = false := decide_eq_false (not_lt.mpr h)
        simp [twapValid, hn]
    simp [execute_twap_order, hval]
  · intro sv sym ti pct ng us fg so cp confirm oc hbad
    unfold execute_grid_strategy
    split_ifs with h1 h2 h3 h4 h5 h6
    · rfl
    · rfl
    · rfl
    · rfl
    · rfl
    · rfl
    · exact absurd hbad (by tauto)

theorem validation_rejects_before_activity_witness :
    execute_twap_order true "BUY" 1 0 5 false 50 [] = ⟨false, 0, 0⟩
    ∧ execute_grid_strategy true "BTCUSDT" 1000 10 1 false 50 true 100 true []
        = ⟨false, 0, 0⟩ :=
  ⟨validation_rejects_before_activity.1 true "BUY" 1 0 5 false 50 [] (Or.inl (by decide)),
   validation_rejects_before_activity.2 true "BTCUSDT" 1000 10 1 false 50 true 100 true []
     (Or.inl (by decide))⟩

/-- C2 (counterexample): a validated, fully simulated TWAP run of total
quantity 0.001 BTC over 5 orders: every slice executes (no slice fails,
five orders fill), yet the run returns failure, because each slice's
formatted quantity `round(0.0002, 3)` is zero and the code's success test
is `total_executed_qty > 0`.  The claim's "success if and only if at least
one slice executed" is therefore false on the code. -/
theorem twap_success_iff_counterexample :
    twapValid true "BUY" (1 / 1000) 5 5 = true
    ∧ (∀ s ∈ twapSimSlices "BTCUSDT" (1 / 1000) 5 [45000, 45001, 45002, 45003, 45004],
        s.ok = true)
    ∧ twapExecCount (twapSimSlices "BTCUSDT" (1 / 1000) 5 [45000, 45001, 45002, 45003, 45004])
        = 5
    ∧ (execute_twap_order true "BUY" (1 / 1000) 5 5 false 50
        (twapSimSlices "BTCUSDT" (1 / 1000) 5 [45000, 45001, 45002, 45003, 45004])).success
        = false := by
  have hb : (pyUpper "BUY" == "BUY") = true := by decide
  have hv : twapValid true "BUY" (1 / 1000) 5 5 = true := by
    simp only [twapValid, hb, Bool.true_or, Bool.true_and, Bool.and_eq_true,
      decide_eq_true_eq]
    norm_num
  have hbtc : strHas "BTCUSDT" "BTC" = true := by decide
  have hq : format_quantity (twapQuantityPerOrder (1 / 1000) 5) "BTCUSDT" = 0 := by
    simp only [format_quantity, hbtc, if_true]
    norm_num [twapQuantityPerOrder, pyRound]
  refine ⟨hv, ?_, ?_, ?_⟩
  · intro s hs
    simp only [twapSimSlices, List.mem_map] at hs
    obtain ⟨p, _, rfl⟩ := hs
    rfl
  · simp [twapSimSlices, twapExecCount]
  · have hsum : twapExecQty
        (twapSimSlices "BTCUSDT" (1 / 1000) 5 [45000, 45001, 45002, 45003, 45004]) = 0 := by
      simp only [twapSimSlices, List.map_cons, List.map_nil, twapExecQty, hq]
      norm_num
    simp only [execute_twap_order, hv, hsum]
    norm_num

/-- C2 (amended): for a validated TWAP run (sentiment gating off) in which
every executed slice has positive executed quantity, a per-slice failure
is skipped and the loop continues over the remaining slices; the run
succeeds exactly when some slice executed, and when every slice fails the
result is failure with zero executed quantity.  (The positivity premise is
what the original claim lacked: a slice whose formatted quantity rounds to
zero executes without contributing to the success test.) -/
theorem twap_failure_handling_amended (symbolValid : Bool) (side : String)
    (total_quantity : ℚ) (duration_minutes num_orders : ℤ) (fear_greed : ℤ)
    (slices : List SliceOutcome)
    (hv : twapValid symbolValid side total_quantity duration_minutes num_orders = true)
    (hpos : ∀ s ∈ slices, s.ok = true → 0 < s.executedQty) :
    ((execute_twap_order symbolValid side total_quantity duration_minutes num_orders
        false fear_greed slices).success = true ↔ ∃ s ∈ slices, s.ok = true)
    ∧ (execute_twap_order symbolValid side total_quantity duration_minutes num_orders
        false fear_greed slices).executedQty = twapExecQty slices
    ∧ ((∀ s ∈ slices, s.ok = false) →
        (execute_twap_order symbolValid side total_quantity duration_minutes num_orders
          false fear_greed slices).success = false
        ∧ (execute_twap_order symbolValid side total_quantity duration_minutes num_orders
            false fear_greed slices).executedQty = 0)
    ∧ (∀ pre post : List SliceOutcome, (∀ s ∈ pre, s.ok = false) →
        twapExecQty (pre ++ post) = twapExecQty post
        ∧ twapExecCount (pre ++ post) = twapExecCount post) := by
  have hres : execute_twap_order symbolValid side total_quantity duration_minutes num_orders
      false fear_greed slices
      = ⟨decide (0 < twapExecQty slices), twapExecQty slices, twapExecCount slices⟩ := by
    simp [execute_twap_order, hv]
  refine ⟨?_, ?_, ?_, twap_totals_skip_failed⟩
  · rw [hres]
    simpa [decide_eq_true_eq] using twapExecQty_pos_iff slices hpos
  · rw [hres]
  · intro hall
    have hz := twapExecQty_eq_zero_of_all_fail slices hall
    rw [hres]
    simp [hz]

theorem twap_failure_handling_amended_witness :
    ((execute_twap_order true "BUY" 10 60 5 false 50
        [⟨true, 2, 100⟩]).success = true
      ↔ ∃ s ∈ [(⟨true, 2, 100⟩ : SliceOutcome)], s.ok = true)
    ∧ (execute_twap_order true "BUY" 10 60 5 false 50
        [⟨true, 2, 100⟩]).executedQty = twapExecQty [⟨true, 2, 100⟩]
    ∧ ((∀ s ∈ [(⟨true, 2, 100⟩ : SliceOutcome)], s.ok = false) →
        (execute_twap_order true "BUY" 10 60 5 false 50
          [⟨true, 2, 100⟩]).success = false
        ∧ (execute_twap_order true "BUY" 10 60 5 false 50
            [⟨true, 2, 100⟩]).executedQty = 0)
    ∧ (∀ pre post : List SliceOutcome, (∀ s ∈ pre, s.ok = false) →
        twapExecQty (pre ++ post) = twapExecQty post
        ∧ twapExecCount (pre ++ post) = twapExecCount post) :=
  twap_failure_handling_amended true "BUY" 10 60 5 50 [⟨true, 2, 100⟩]
    (by simp only [twapValid, Bool.and_eq_true, Bool.or_eq_true, beq_iff_eq,
          decide_eq_true_eq]
        refine ⟨⟨⟨⟨trivial, Or.inl (by decide)⟩, by norm_num⟩, by decide⟩, by decide⟩)
    (by intro s hs
        simp only [List.mem_singleton] at hs
        subst hs
        intro
        norm_num)

/-- C8 (counterexample): the simulated OCO submission constructs a result
whose status is `EXECUTING` — neither `FILLED` nor `NEW` — so the claim's
status dichotomy does not cover every simulated submission. -/
theorem oco_sim_status_counterexample :
    (place_oco_order_sim "BTCUSDT" "SELL" 1 46000 44000 43900).status = "EXECUTING"
    ∧ (place_oco_order_sim "BTCUSDT" "SELL" 1 46000 44000 43900).status ≠ "FILLED"
    ∧ (place_oco_order_sim "BTCUSDT" "SELL" 1 46000 44000 43900).status ≠ "NEW" :=
  ⟨rfl, by decide, by decide⟩

/-- C8 (amended): every simulated order submission constructs a synthetic
result whose identifier is a deterministic function of the submission's
inputs — in particular the TWAP slice identifier does not depend on the
wall-clock `transactTime` the slice dict also records — and whose status
is immediately FILLED, or NEW for resting order types (limit orders,
stop-limit orders, and LIMIT grid levels); the one exception is the
simulated OCO submission, whose synthetic result carries the list-level
status EXECUTING. -/
theorem simulated_order_results_amended :
    (∀ (symbol side : String) (quantity current_price : ℚ),
        (place_market_order_sim symbol side quantity current_price).status = "FILLED"
        ∧ (place_market_order_sim symbol side quantity current_price).orderId
            = "SIM_" ++ symbol ++ "_" ++ side ++ "_" ++ toString quantity)
    ∧ (∀ (symbol side : String) (quantity price : ℚ),
        (place_limit_order_sim symbol side quantity price).status = "NEW"
        ∧ (place_limit_order_sim symbol side quantity price).orderId
            = "SIM_LIMIT_" ++ symbol ++ "_" ++ side ++ "_" ++ toString quantity
                ++ "_" ++ toString price)
    ∧ (∀ (symbol side : String) (quantity stop_price limit_price : ℚ),
        (place_stop_limit_order_sim symbol side quantity stop_price limit_price).status
          = "NEW"
        ∧ (place_stop_limit_order_sim symbol side quantity stop_price limit_price).orderId
            = "SIM_STOP_LIMIT_" ++ symbol ++ "_" ++ side ++ "_" ++ toString quantity
                ++ "_" ++ toString stop_price ++ "_" ++ toString limit_price)
    ∧ (∀ (symbol side : String) (i : ℕ) (order_quantity current_price : ℚ)
        (transactTime : ℤ),
        (twap_slice_order_sim symbol side i order_quantity current_price
            transactTime).status = "FILLED"
        ∧ (twap_slice_order_sim symbol side i order_quantity current_price
            transactTime).orderId
            = "TWAP_SIM_" ++ toString (i + 1) ++ "_" ++ symbol ++ "_" ++ side
                ++ "_" ++ toString order_quantity)
    ∧ (∀ (symbol : String) (g : GridLevel),
        ((grid_order_sim symbol g).status
          = if g.otype = "LIMIT" then "NEW" else "FILLED")
        ∧ (grid_order_sim symbol g).orderId
            = "GRID_SIM_" ++ toString g.level ++ "_" ++ symbol ++ "_" ++ g.side)
    ∧ (∀ (symbol side : String) (quantity price stop_price stop_limit_price : ℚ),
        (place_oco_order_sim symbol side quantity price stop_price stop_limit_price).status
          = "EXECUTING"
        ∧ (place_oco_order_sim symbol side quantity price stop_price
            stop_limit_price).orderListId
            = "SIM_OCO_" ++ symbol ++ "_" ++ side ++ "_" ++ toString quantity) :=
  ⟨fun _ _ _ _ => ⟨rfl, rfl⟩, fun _ _ _ _ => ⟨rfl, rfl⟩, fun _ _ _ _ _ => ⟨rfl, rfl⟩,
   fun _ _ _ _ _ _ => ⟨rfl, rfl⟩, fun _ _ => ⟨rfl, rfl⟩, fun _ _ _ _ _ _ => ⟨rfl, rfl⟩⟩
